import Mathlib

/-!
Shallow embedding of the semantic-memory core of the repository
(src/core/embedding_service.py, src/core/memory_manager.py,
src/models/memory_record.py, src/config/settings.py), together with
theorems settling the specification claims about it.

Conventions of the embedding:
* Python strings are Lean `String`s; metadata values that the code
  splits and joins character-wise are `List Char`.
* Python `float` values that only ever participate in comparisons and
  rational arithmetic (distances, similarity thresholds, importance
  scores, timestamps) are modelled as `ℚ`; embedding vectors, whose
  L2 normalisation needs a square root, are `List ℝ`.
* `datetime.now()` is modelled by an explicit time parameter of type `ℚ`
  threaded through each operation.
* Effects are explicit: the embedding-service cache is a state record,
  disk persistence of the session registry is a list of snapshots, and
  calls to the underlying embedding model are counted.
-/

/-! ### Python primitives -/

/-- Python whitespace test for the characters `str.strip()` removes
(ASCII range, which is all the repository ever feeds it). -/
def pyIsSpace (c : Char) : Bool :=
  c == ' ' || c == '\t' || c == '\n' || c == '\r' || c == '\x0b' || c == '\x0c'

/-- Model of Python `str.strip()` on the character list of a string:
drop whitespace from both ends. -/
def pyStripL (l : List Char) : List Char :=
  ((l.dropWhile pyIsSpace).reverse.dropWhile pyIsSpace).reverse

/-- Model of the Python idiom `x or d` for `x : Optional[int]`:
`None` and `0` are falsy and select the default. -/
def pyOrInt (v : Option Int) (d : Int) : Int :=
  match v with
  | none => d
  | some x => if x = 0 then d else x

/-- Model of the Python idiom `x or d` for `x : Optional[float]`:
`None` and `0.0` are falsy and select the default. -/
def pyOrRat (v : Option ℚ) (d : ℚ) : ℚ :=
  match v with
  | none => d
  | some x => if x = 0 then d else x

/-- `",".join(l)` from `store_memory` (memory_manager.py line 98/99),
character-wise. -/
def commaJoin (l : List (List Char)) : List Char :=
  List.intercalate [','] l

/-- `metadata["topics"].split(",") if metadata["topics"] else []` from
`retrieve_memories` (memory_manager.py line 186/187): the empty string is
falsy and decodes to the empty list. -/
def commaSplitMeta (s : List Char) : List (List Char) :=
  if s = [] then [] else s.splitOn ','

/-! ### Settings (src/config/settings.py defaults) -/

/-- `Settings.top_k_results` default. -/
def settings_top_k_results : Int := 10

/-- `Settings.similarity_threshold` default. -/
def settings_similarity_threshold : ℚ := 7/10

/-! ### Embedding service (src/core/embedding_service.py) -/

/-- Sum of squares of the entries, the radicand of `np.linalg.norm`. -/
noncomputable def normSq (v : List ℝ) : ℝ :=
  (v.map (fun x => x * x)).sum

/-- `np.linalg.norm(np_vector)` for a 1-D vector: the L2 norm. -/
noncomputable def vecNorm (v : List ℝ) : ℝ :=
  Real.sqrt (normSq v)

open Classical in
/-- `EmbeddingService._normalize_vector`: divide by the L2 norm, returning
the vector unchanged when the norm is zero. -/
noncomputable def normalizeVector (v : List ℝ) : List ℝ :=
  if vecNorm v = 0 then v else v.map (fun x => x / vecNorm v)

/-- Mutable state of `EmbeddingService`: the memoization cache keyed by
`hash(text)`, plus an instrumentation counter of how many times the
underlying provider (`_embed_with_sentence_transformers` /
`_embed_with_gemini`) was invoked. -/
structure EmbState where
  cache : List (Int × List ℝ)
  providerCalls : Nat

/-- `EmbeddingService.embed_text`. Parameters model the ambient
environment: `hashFn` is Python's `hash`, `provider` the deterministic
underlying model, `maxCacheSize` is `settings.max_cache_size`. Raising
`ValueError` is modelled by `Except.error`. -/
noncomputable def embed_text (hashFn : String → Int) (provider : String → List ℝ)
    (maxCacheSize : Nat) (s : EmbState) (text : String) :
    Except String (List ℝ) × EmbState :=
  if (pyStripL text.data).isEmpty then
    (.error "Empty text cannot be embedded", s)
  else
    match List.lookup (hashFn text) s.cache with
    | some v => (.ok v, s)
    | none =>
      let embedding := provider text
      let normalized := normalizeVector embedding
      let cache2 :=
        if s.cache.length < maxCacheSize then
          (hashFn text, normalized) :: s.cache
        else s.cache
      (.ok normalized, ⟨cache2, s.providerCalls + 1⟩)

/-! ### Data model (src/models/memory_record.py) -/

/-- `ConversationSession` (pydantic model), with times as `ℚ`. -/
structure PySession where
  session_id : String
  title : String
  description : Option String
  persona_id : Option String
  created_at : ℚ
  last_activity : ℚ
  message_count : Nat
  total_tokens : Nat
  project_tags : List String
  is_active : Bool
  auto_resume : Bool
deriving Repr, DecidableEq

/-- Input `MemoryRecord` as handed to `store_memory`; the vector type `V`
is abstract because `store_memory` never inspects vector entries. -/
structure MemoryIn (V : Type) where
  id : String
  text : String
  embedding : Option V
  timestamp : ℚ
  session_id : String
  speaker : String
  topics : List (List Char)
  keywords : List (List Char)
  importance_score : ℚ
  project_context : Option String
  persona_context : Option String
deriving Repr, DecidableEq

/-- One entry of the ChromaDB collection as written by
`self.collection.add(...)` in `store_memory`: document, flattened
metadata and id. -/
structure StoredEntry (V : Type) where
  id : String
  embedding : V
  document : String
  session_id : String
  speaker : String
  timestamp : ℚ
  importance_score : ℚ
  topics : List Char
  keywords : List Char
  project_context : String
  persona_context : String
deriving Repr, DecidableEq

/-! ### Memory manager state (src/core/memory_manager.py) -/

/-- Lookup in a Python dict modelled as an association list. -/
def dictGet {α : Type} (k : String) (d : List (String × α)) : Option α :=
  (d.find? (fun p => p.1 == k)).map (fun p => p.2)

/-- `d[k] = v` on a Python dict modelled as an association list:
replace in place if present, else append. -/
def dictInsert {α : Type} (k : String) (v : α) : List (String × α) → List (String × α)
  | [] => [(k, v)]
  | p :: rest => if p.1 == k then (k, v) :: rest else p :: dictInsert k v rest

/-- State of `MemoryManager`: the in-memory session registry
(`self.sessions`), the ChromaDB collection contents, and the list of
registry snapshots written to disk by `_save_sessions` (most recent
first). -/
structure ManagerState (V : Type) where
  sessions : List (String × PySession)
  collection : List (StoredEntry V)
  saved : List (List (String × PySession))
deriving Repr, DecidableEq

/-- `MemoryManager._update_session_stats`: when the session is present,
bump `message_count`, stamp `last_activity` with the current time and
persist the registry via `_save_sessions`; otherwise do nothing. -/
def update_session_stats {V : Type} (st : ManagerState V) (sid : String) (now : ℚ) :
    ManagerState V :=
  match dictGet sid st.sessions with
  | none => st
  | some s =>
    let s2 := { s with message_count := s.message_count + 1, last_activity := now }
    let d := dictInsert sid s2 st.sessions
    { st with sessions := d, saved := d :: st.saved }

/-- The flattened entry `store_memory` hands to `self.collection.add`:
list-valued metadata comma-joined, optional contexts defaulted to `""`.
`embedFn` models `embedding_service.embed_text`, consulted only when the
record carries no embedding. -/
def storedEntryOf {V : Type} (embedFn : String → V) (m : MemoryIn V) : StoredEntry V :=
  { id := m.id
    embedding := match m.embedding with | some e => e | none => embedFn m.text
    document := m.text
    session_id := m.session_id
    speaker := m.speaker
    timestamp := m.timestamp
    importance_score := m.importance_score
    topics := commaJoin m.topics
    keywords := commaJoin m.keywords
    project_context := m.project_context.getD ""
    persona_context := m.persona_context.getD "" }

/-- `MemoryManager.store_memory`: add the record to the collection, then
update the referenced session's stats; returns `str(memory.id)`. -/
def store_memory {V : Type} (embedFn : String → V) (st : ManagerState V)
    (m : MemoryIn V) (now : ℚ) : String × ManagerState V :=
  let entry := storedEntryOf embedFn m
  let st2 := { st with collection := st.collection ++ [entry] }
  (m.id, update_session_stats st2 m.session_id now)

/-- `MemoryManager.create_session`: build a fresh `ConversationSession`
with the pydantic defaults (`message_count = 0`, `is_active = true`,
both timestamps now), put it into the registry and persist. -/
def create_session {V : Type} (st : ManagerState V) (sid title : String)
    (description persona_id : Option String) (now : ℚ) :
    PySession × ManagerState V :=
  let s : PySession :=
    { session_id := sid
      title := title
      description := description
      persona_id := persona_id
      created_at := now
      last_activity := now
      message_count := 0
      total_tokens := 0
      project_tags := []
      is_active := true
      auto_resume := true }
  let d := dictInsert sid s st.sessions
  (s, { st with sessions := d, saved := d :: st.saved })

/-- `MemoryManager.cleanup_old_memories`. `scan` models the outcome of
the `self.collection.query(...)` call with the `timestamp < cutoff`
where-filter (`Except.error` when that call raises). Among the scanned
entries, exactly those with `importance_score < 0.3` are deleted from
the collection by id; an exception yields `(st, 0)` via the
`except` clause. -/
def cleanup_old_memories {V : Type} (st : ManagerState V)
    (scan : Except Unit (List (StoredEntry V))) : ManagerState V × Nat :=
  match scan with
  | .error _ => (st, 0)
  | .ok scanned =>
    let idsToDelete := (scanned.filter (fun e => decide (e.importance_score < 3/10))).map
      (fun e => e.id)
    if idsToDelete = [] then (st, 0)
    else
      ({ st with collection :=
          st.collection.filter (fun e => ! idsToDelete.contains e.id) },
       idsToDelete.length)

/-! ### Retrieval (memory_manager.py, `retrieve_memories`) -/

/-- One nearest-neighbour hit as returned by `self.collection.query`:
document, flattened metadata, id and cosine distance. -/
structure QueryHit where
  id : String
  document : String
  session_id : String
  speaker : String
  timestamp : ℚ
  importance_score : ℚ
  topics : List Char
  keywords : List Char
  project_context : String
  persona_context : String
  distance : ℚ
deriving Repr, DecidableEq

/-- The `MemoryRecord` rebuilt from a query hit inside the retrieval
loop (vector-free view). -/
structure RetrievedRecord where
  id : String
  text : String
  session_id : String
  speaker : String
  timestamp : ℚ
  importance_score : ℚ
  topics : List (List Char)
  keywords : List (List Char)
  project_context : String
  persona_context : String
deriving Repr, DecidableEq

/-- Conversion of one hit back into a `MemoryRecord`
(memory_manager.py lines 179-190), comma-splitting the list metadata. -/
def toMemoryRecord (h : QueryHit) : RetrievedRecord :=
  { id := h.id
    text := h.document
    session_id := h.session_id
    speaker := h.speaker
    timestamp := h.timestamp
    importance_score := h.importance_score
    topics := commaSplitMeta h.topics
    keywords := commaSplitMeta h.keywords
    project_context := h.project_context
    persona_context := h.persona_context }

/-- The conversion loop of `retrieve_memories` (lines 168-191): walk the
hits the index returned, `continue` past any hit whose similarity
`1 - distance` is below the threshold, convert and collect the rest. -/
def thresholdFilterLoop (threshold : ℚ) (hits : List QueryHit) : List RetrievedRecord :=
  hits.foldr
    (fun h acc => if 1 - h.distance < threshold then acc else toMemoryRecord h :: acc)
    []

/-- `MemoryManager.retrieve_memories`. `idx` models
`self.collection.query` (query embedding and `n_results` to hits); the
final `Nat` counts how many index queries were issued. Defaults are
substituted with Python `or` before anything else happens, the query is
embedded next, and only then is the index consulted. -/
noncomputable def retrieve_memories (hashFn : String → Int)
    (provider : String → List ℝ) (maxCacheSize : Nat)
    (idx : List ℝ → Int → List QueryHit) (es : EmbState) (query : String)
    (top_k : Option Int) (similarity_threshold : Option ℚ) :
    Except String (List RetrievedRecord) × EmbState × Nat :=
  let k := pyOrInt top_k settings_top_k_results
  let t := pyOrRat similarity_threshold settings_similarity_threshold
  match embed_text hashFn provider maxCacheSize es query with
  | (.error e, es2) => (.error e, es2, 0)
  | (.ok v, es2) => (.ok (thresholdFilterLoop t (idx v k)), es2, 1)

/-! ### Iterated stores (for the session-statistics claims) -/

/-- Fold a sequence of `store_memory` calls (each paired with the time
`datetime.now()` reads during it) over the manager state. -/
def storeMany {V : Type} (embedFn : String → V) (st : ManagerState V)
    (items : List (MemoryIn V × ℚ)) : ManagerState V :=
  items.foldl (fun acc it => (store_memory embedFn acc it.1 it.2).2) st

/-- The session registry entry for `sid` observed after each store of
the sequence, in order. -/
def sessionTrace {V : Type} (embedFn : String → V) (st : ManagerState V)
    (sid : String) : List (MemoryIn V × ℚ) → List (Option PySession)
  | [] => []
  | it :: rest =>
    let st2 := (store_memory embedFn st it.1 it.2).2
    dictGet sid st2.sessions :: sessionTrace embedFn st2 sid rest

/-! ### Shared helper lemmas -/

theorem getLastD_cons_eq {α : Type} (a d : α) (l : List α) :
    (a :: l).getLastD d = l.getLastD a := by
  cases l <;> simp [List.getLastD]

theorem commaJoin_ne_nil (hd : List Char) (tl : List (List Char)) (h : hd ≠ []) :
    commaJoin (hd :: tl) ≠ [] := by
  cases tl with
  | nil => simpa [commaJoin, List.intercalate] using h
  | cons b t =>
    simp only [commaJoin, List.intercalate, List.intersperse_cons_cons, List.flatten]
    intro hc
    exact h (List.append_eq_nil.1 hc).1

theorem thresholdFilterLoop_eq (threshold : ℚ) (hits : List QueryHit) :
    thresholdFilterLoop threshold hits =
      (hits.filter (fun h => ! decide (1 - h.distance < threshold))).map toMemoryRecord := by
  induction hits with
  | nil => rfl
  | cons h t ih =>
    by_cases hc : 1 - h.distance < threshold <;>
      simp [thresholdFilterLoop, List.filter, hc] <;>
      simpa [thresholdFilterLoop] using ih

theorem find?_dictInsert_self {α : Type} (k : String) (v : α)
    (d : List (String × α)) :
    List.find? (fun p => p.1 == k) (dictInsert k v d) = some (k, v) := by
  induction d with
  | nil => simp [dictInsert]
  | cons p rest ih =>
    by_cases h : p.1 = k
    · simp [dictInsert, h]
    · simp [dictInsert, h, ih]

theorem dictGet_dictInsert_self {α : Type} (k : String) (v : α)
    (d : List (String × α)) : dictGet k (dictInsert k v d) = some v := by
  simp [dictGet, find?_dictInsert_self]

/-! ### Claim C9: comma join/split codec -/

/-- Claim C9: topics and keywords lists are comma-joined into single
metadata strings on store and comma-split on retrieval; this
encode/decode round-trips exactly for every list whose elements are
non-empty comma-free strings, including the empty list, while an
element containing a comma is split into multiple elements on
retrieval. -/
theorem C9_comma_codec_roundtrip :
    (∀ l : List (List Char), (∀ e ∈ l, e ≠ [] ∧ ',' ∉ e) →
      commaSplitMeta (commaJoin l) = l) ∧
    commaSplitMeta (commaJoin [['a', ',', 'b']]) = [['a'], ['b']] := by
  constructor
  · intro l hl
    cases l with
    | nil => rfl
    | cons hd tl =>
      have hne : commaJoin (hd :: tl) ≠ [] :=
        commaJoin_ne_nil hd tl (hl hd (List.mem_cons_self hd tl)).1
      rw [commaSplitMeta, if_neg hne]
      exact List.splitOn_intercalate (hd :: tl) ',' (fun e he => (hl e he).2)
        (List.cons_ne_nil hd tl)
  · decide

/-- Claim C9 witness: the round-trip instantiated at a concrete
two-element list of comma-free strings. -/
theorem C9_comma_codec_roundtrip_witness :
    commaSplitMeta (commaJoin [['x'], ['y', 'z']]) = [['x'], ['y', 'z']] :=
  C9_comma_codec_roundtrip.1 [['x'], ['y', 'z']] (by decide)

/-! ### Claim C8: Python or-defaulting of retrieval parameters -/

/-- Claim C8: an explicitly passed `top_k = 0` or
`similarity_threshold = 0.0` is treated as absent by the `or`-defaulting
of `retrieve_memories`, so the configured defaults are substituted and a
caller can never obtain an effective `top_k` of zero nor an effective
threshold of zero. -/
theorem C8_or_defaulting_treats_zero_as_absent :
    (∀ hashFn provider maxCacheSize idx es query thr,
      retrieve_memories hashFn provider maxCacheSize idx es query (some 0) thr =
        retrieve_memories hashFn provider maxCacheSize idx es query none thr) ∧
    (∀ hashFn provider maxCacheSize idx es query tk,
      retrieve_memories hashFn provider maxCacheSize idx es query tk (some (0 : ℚ)) =
        retrieve_memories hashFn provider maxCacheSize idx es query tk none) ∧
    (∀ tk, pyOrInt tk settings_top_k_results ≠ 0) ∧
    (∀ th, pyOrRat th settings_similarity_threshold ≠ 0) := by
  refine ⟨?_, ?_, ?_, ?_⟩
  · intro hashFn provider maxCacheSize idx es query thr
    simp [retrieve_memories, pyOrInt]
  · intro hashFn provider maxCacheSize idx es query tk
    simp [retrieve_memories, pyOrRat]
  · intro tk
    rcases tk with _ | x
    · simp [pyOrInt, settings_top_k_results]
    · by_cases h : x = 0 <;> simp [pyOrInt, settings_top_k_results, h]
  · intro th
    rcases th with _ | x
    · simp [pyOrRat, settings_similarity_threshold]
    · by_cases h : x = 0 <;> simp [pyOrRat, settings_similarity_threshold, h]

/-! ### Claim C1: inclusive similarity threshold, applied after the index -/

/-- Claim C1: a candidate returned by the index whose similarity
`1 - distance` equals (or exceeds) the threshold is included in the
retrieval results; a candidate is discarded only when its similarity is
strictly below the threshold; and the threshold filter runs over
whatever candidate list the index returned, after the index query. -/
theorem C1_threshold_inclusive :
    (∀ (threshold : ℚ) (hits : List QueryHit) (h : QueryHit), h ∈ hits →
      threshold ≤ 1 - h.distance →
      toMemoryRecord h ∈ thresholdFilterLoop threshold hits) ∧
    (∀ (threshold : ℚ) (hits : List QueryHit) (h : QueryHit), h ∈ hits →
      toMemoryRecord h ∉ thresholdFilterLoop threshold hits →
      1 - h.distance < threshold) ∧
    (∀ hashFn provider maxCacheSize idx es query tk thr v es2,
      embed_text hashFn provider maxCacheSize es query = (.ok v, es2) →
      retrieve_memories hashFn provider maxCacheSize idx es query tk thr =
        (.ok (thresholdFilterLoop (pyOrRat thr settings_similarity_threshold)
          (idx v (pyOrInt tk settings_top_k_results))), es2, 1)) := by
  refine ⟨?_, ?_, ?_⟩
  · intro threshold hits h hmem hle
    rw [thresholdFilterLoop_eq]
    exact List.mem_map_of_mem toMemoryRecord
      (List.mem_filter.2 ⟨hmem, by simpa using not_lt.2 hle⟩)
  · intro threshold hits h hmem hnot
    by_contra hge
    exact hnot (by
      rw [thresholdFilterLoop_eq]
      exact List.mem_map_of_mem toMemoryRecord
        (List.mem_filter.2 ⟨hmem, by simpa using hge⟩))
  · intro hashFn provider maxCacheSize idx es query tk thr v es2 hemb
    simp only [retrieve_memories, hemb]

/-- Claim C1 witness: a hit at distance `3/10` has similarity exactly
`7/10`, the default threshold, and is retained; and a concrete
retrieval applies the filter to the index's candidates. -/
theorem C1_threshold_inclusive_witness :
    toMemoryRecord ⟨"m1", "doc", "s1", "user", 0, 1/2, [], [], "", "", 3/10⟩ ∈
      thresholdFilterLoop (7/10)
        [⟨"m1", "doc", "s1", "user", 0, 1/2, [], [], "", "", 3/10⟩] ∧
    retrieve_memories (fun _ => 0) (fun _ => []) 1000 (fun _ _ => []) ⟨[(0, [])], 0⟩
        "q" none none =
      (.ok (thresholdFilterLoop (pyOrRat none settings_similarity_threshold)
        ((fun _ _ => ([] : List QueryHit)) ([] : List ℝ)
          (pyOrInt none settings_top_k_results))), ⟨[(0, [])], 0⟩, 1) :=
  ⟨C1_threshold_inclusive.1 (7/10) _ _ (List.mem_singleton_self _) (by norm_num),
   C1_threshold_inclusive.2.2 (fun _ => 0) (fun _ => []) 1000 (fun _ _ => [])
     ⟨[(0, [])], 0⟩ "q" none none [] ⟨[(0, [])], 0⟩ rfl⟩

/-! ### Store and session-registry lemmas -/

theorem store_memory_session_present {V : Type} (embedFn : String → V)
    (st : ManagerState V) (m : MemoryIn V) (now : ℚ) (s : PySession)
    (h : dictGet m.session_id st.sessions = some s) :
    store_memory embedFn st m now =
      (m.id,
       { sessions := dictInsert m.session_id
           { s with message_count := s.message_count + 1, last_activity := now }
           st.sessions
         collection := st.collection ++ [storedEntryOf embedFn m]
         saved := dictInsert m.session_id
           { s with message_count := s.message_count + 1, last_activity := now }
           st.sessions :: st.saved }) := by
  simp only [store_memory, update_session_stats, h]

theorem store_memory_session_absent {V : Type} (embedFn : String → V)
    (st : ManagerState V) (m : MemoryIn V) (now : ℚ)
    (h : dictGet m.session_id st.sessions = none) :
    store_memory embedFn st m now =
      (m.id, { st with collection := st.collection ++ [storedEntryOf embedFn m] }) := by
  simp only [store_memory, update_session_stats, h]

/-! ### Claim C10: storing under an unknown session leaves the registry alone -/

/-- Claim C10: `store_memory` with a `session_id` absent from the
in-memory session registry still succeeds — the record is appended to
the collection and the id returned — while the registry is left
entirely unchanged: no session is created, no counter moves, and no
registry persist happens. -/
theorem C10_store_unknown_session_frame {V : Type} (embedFn : String → V)
    (st : ManagerState V) (m : MemoryIn V) (now : ℚ)
    (h : dictGet m.session_id st.sessions = none) :
    (store_memory embedFn st m now).1 = m.id ∧
    (store_memory embedFn st m now).2.collection =
      st.collection ++ [storedEntryOf embedFn m] ∧
    (store_memory embedFn st m now).2.sessions = st.sessions ∧
    (store_memory embedFn st m now).2.saved = st.saved := by
  rw [store_memory_session_absent embedFn st m now h]
  exact ⟨rfl, rfl, rfl, rfl⟩

/-- Claim C10 witness: a concrete store into a registry that does not
know the record's session: the id comes back, the entry lands in the
collection, and sessions and persisted snapshots are untouched. -/
theorem C10_store_unknown_session_frame_witness :
    (store_memory (fun _ => (0 : Nat))
      (⟨[("other", ⟨"other", "t", none, none, 0, 0, 3, 0, [], true, true⟩)], [], []⟩ :
        ManagerState Nat)
      ⟨"id9", "hello", some 7, 2, "s1", "user", [], [], 1/2, none, none⟩ 5).1 = "id9" ∧
    (store_memory (fun _ => (0 : Nat))
      (⟨[("other", ⟨"other", "t", none, none, 0, 0, 3, 0, [], true, true⟩)], [], []⟩ :
        ManagerState Nat)
      ⟨"id9", "hello", some 7, 2, "s1", "user", [], [], 1/2, none, none⟩ 5).2.collection =
      [] ++ [storedEntryOf (fun _ => (0 : Nat))
        ⟨"id9", "hello", some 7, 2, "s1", "user", [], [], 1/2, none, none⟩] ∧
    (store_memory (fun _ => (0 : Nat))
      (⟨[("other", ⟨"other", "t", none, none, 0, 0, 3, 0, [], true, true⟩)], [], []⟩ :
        ManagerState Nat)
      ⟨"id9", "hello", some 7, 2, "s1", "user", [], [], 1/2, none, none⟩ 5).2.sessions =
      [("other", ⟨"other", "t", none, none, 0, 0, 3, 0, [], true, true⟩)] ∧
    (store_memory (fun _ => (0 : Nat))
      (⟨[("other", ⟨"other", "t", none, none, 0, 0, 3, 0, [], true, true⟩)], [], []⟩ :
        ManagerState Nat)
      ⟨"id9", "hello", some 7, 2, "s1", "user", [], [], 1/2, none, none⟩ 5).2.saved = [] :=
  C10_store_unknown_session_frame (fun _ => (0 : Nat)) _ _ 5 (by decide)

/-! ### Claim C6: create_session on an existing id -/

/-- Claim C6 counterexample: `create_session` called with a
`session_id` that already exists in the registry does not fail with any
duplicate-session error — it succeeds and overwrites the existing
session (here one with `message_count = 5`) with a fresh one whose
`message_count` is `0`. -/
theorem C6_counterexample_duplicate_overwritten :
    dictGet "s1"
      ((create_session
        (⟨[("s1", ⟨"s1", "t", none, none, 0, 0, 5, 0, [], true, true⟩)], [], []⟩ :
          ManagerState Nat) "s1" "t2" none none 7).2.sessions) =
      some (create_session
        (⟨[("s1", ⟨"s1", "t", none, none, 0, 0, 5, 0, [], true, true⟩)], [], []⟩ :
          ManagerState Nat) "s1" "t2" none none 7).1 ∧
    (create_session
      (⟨[("s1", ⟨"s1", "t", none, none, 0, 0, 5, 0, [], true, true⟩)], [], []⟩ :
        ManagerState Nat) "s1" "t2" none none 7).1.message_count = 0 ∧
    dictGet "s1"
      (⟨[("s1", ⟨"s1", "t", none, none, 0, 0, 5, 0, [], true, true⟩)], [], []⟩ :
        ManagerState Nat).sessions =
      some ⟨"s1", "t", none, none, 0, 0, 5, 0, [], true, true⟩ := by
  refine ⟨by decide, rfl, by decide⟩

/-- Claim C6 (amended): `create_session` performs no duplicate check:
for any registry state it succeeds, inserting (and overwriting any
existing session under that id) a fresh session with
`message_count = 0` and `is_active = true`, and immediately persists
the full registry. -/
theorem C6_create_session_inserts_and_persists {V : Type} (st : ManagerState V)
    (sid title : String) (description persona_id : Option String) (now : ℚ) :
    (create_session st sid title description persona_id now).1.message_count = 0 ∧
    (create_session st sid title description persona_id now).1.is_active = true ∧
    dictGet sid (create_session st sid title description persona_id now).2.sessions =
      some (create_session st sid title description persona_id now).1 ∧
    (create_session st sid title description persona_id now).2.saved =
      (create_session st sid title description persona_id now).2.sessions :: st.saved ∧
    (create_session st sid title description persona_id now).2.collection =
      st.collection := by
  refine ⟨rfl, rfl, ?_, rfl, rfl⟩
  simp only [create_session]
  exact dictGet_dictInsert_self sid _ st.sessions

/-! ### Claim C2: per-store session statistics -/

theorem storeMany_session_present {V : Type} (f : String → V) (sid : String) :
    ∀ (items : List (MemoryIn V × ℚ)) (st : ManagerState V) (s : PySession),
      dictGet sid st.sessions = some s →
      (∀ it ∈ items, it.1.session_id = sid) →
      dictGet sid (storeMany f st items).sessions =
        some { s with message_count := s.message_count + items.length,
                      last_activity :=
                        (items.map (fun it => it.2)).getLastD s.last_activity } ∧
      (storeMany f st items).saved.length = st.saved.length + items.length ∧
      (sessionTrace f st sid items).map (fun o => o.map (fun x => x.message_count)) =
        (List.range items.length).map (fun n => some (s.message_count + n + 1)) ∧
      (sessionTrace f st sid items).map (fun o => o.map (fun x => x.last_activity)) =
        items.map (fun it => some it.2) := by
  intro items
  induction items with
  | nil =>
    intro st s h _
    refine ⟨by simpa using h, rfl, rfl, rfl⟩
  | cons it rest ih =>
    intro st s h hall
    have hsid : it.1.session_id = sid := hall it (List.mem_cons_self it rest)
    have hget : dictGet it.1.session_id st.sessions = some s := by rw [hsid]; exact h
    have hstep := store_memory_session_present f st it.1 it.2 s hget
    set s2 : PySession :=
      { s with message_count := s.message_count + 1, last_activity := it.2 } with hs2
    have h2 : dictGet sid (store_memory f st it.1 it.2).2.sessions = some s2 := by
      rw [hstep]
      simp only [hsid]
      exact dictGet_dictInsert_self sid s2 st.sessions
    have hsaved2 : (store_memory f st it.1 it.2).2.saved.length = st.saved.length + 1 := by
      rw [hstep]
      simp
    have hrest : ∀ x ∈ rest, x.1.session_id = sid :=
      fun x hx => hall x (List.mem_cons_of_mem it hx)
    have IH := ih (store_memory f st it.1 it.2).2 s2 h2 hrest
    have hfold : storeMany f st (it :: rest) =
        storeMany f (store_memory f st it.1 it.2).2 rest := rfl
    refine ⟨?_, ?_, ?_, ?_⟩
    · rw [hfold, IH.1]
      obtain ⟨a1, a2, a3, a4, a5, a6, a7, a8, a9, a10, a11⟩ := s
      simp only [hs2, List.map_cons, getLastD_cons_eq, List.length_cons]
      congr 2
      omega
    · rw [hfold, IH.2.1, hsaved2]
      simp only [List.length_cons]
      omega
    · show (dictGet sid (store_memory f st it.1 it.2).2.sessions ::
        sessionTrace f (store_memory f st it.1 it.2).2 sid rest).map
          (fun o => o.map (fun x => x.message_count)) = _
      rw [h2]
      simp only [List.map_cons, IH.2.2.1, List.length_cons, List.range_succ_eq_map,
        List.map_map]
      congr 1
      refine List.map_congr_left (fun n _ => ?_)
      simp only [Function.comp_apply, hs2, Option.some.injEq]
      omega
    · show (dictGet sid (store_memory f st it.1 it.2).2.sessions ::
        sessionTrace f (store_memory f st it.1 it.2).2 sid rest).map
          (fun o => o.map (fun x => x.last_activity)) = _
      rw [h2]
      simp [List.map_cons, IH.2.2.2, hs2]

/-- Claim C2: for a session present in the registry, each `store_memory`
call referencing it increments `message_count` by exactly one, sets
`last_activity` to the current time and persists the registry; hence
after storing `N` memories under a session that started at count zero,
`message_count = N` (the per-store counts run `1, 2, …, N`), the
observed `last_activity` values are exactly the store times (so they are
non-decreasing whenever the clock is), and the registry was persisted
once per store. -/
theorem C2_session_stats {V : Type} (f : String → V) (st : ManagerState V)
    (items : List (MemoryIn V × ℚ)) (sid : String) (s : PySession)
    (h : dictGet sid st.sessions = some s) (h0 : s.message_count = 0)
    (hall : ∀ it ∈ items, it.1.session_id = sid) :
    (∀ (st2 : ManagerState V) (s2 : PySession) (m : MemoryIn V) (now : ℚ),
      dictGet sid st2.sessions = some s2 → m.session_id = sid →
      (store_memory f st2 m now).2.sessions =
        dictInsert sid
          { s2 with message_count := s2.message_count + 1, last_activity := now }
          st2.sessions ∧
      (store_memory f st2 m now).2.saved =
        dictInsert sid
          { s2 with message_count := s2.message_count + 1, last_activity := now }
          st2.sessions :: st2.saved) ∧
    (sessionTrace f st sid items).map (fun o => o.map (fun x => x.message_count)) =
      (List.range items.length).map (fun n => some (n + 1)) ∧
    (sessionTrace f st sid items).map (fun o => o.map (fun x => x.last_activity)) =
      items.map (fun it => some it.2) ∧
    dictGet sid (storeMany f st items).sessions =
      some { s with message_count := items.length,
                    last_activity :=
                      (items.map (fun it => it.2)).getLastD s.last_activity } ∧
    (storeMany f st items).saved.length = st.saved.length + items.length ∧
    (List.Chain' (fun a b => a ≤ b) (items.map (fun it => it.2)) →
      List.Chain' (fun a b => a ≤ b)
        ((sessionTrace f st sid items).map
          (fun o => (o.map (fun x => x.last_activity)).getD 0))) := by
  have H := storeMany_session_present f sid items st s h hall
  refine ⟨?_, ?_, H.2.2.2, ?_, H.2.1, ?_⟩
  · intro st2 s2 m now hget2 hmid
    have hget2m : dictGet m.session_id st2.sessions = some s2 := by rw [hmid]; exact hget2
    have hstep := store_memory_session_present f st2 m now s2 hget2m
    rw [hstep]
    rw [hmid]
    exact ⟨rfl, rfl⟩
  · rw [H.2.2.1, h0]
    exact List.map_congr_left (fun n _ => by simp)
  · rw [H.1, h0]
    simp
  · intro hch
    have hmm : (sessionTrace f st sid items).map
        (fun o => (o.map (fun x => x.last_activity)).getD 0) =
      ((sessionTrace f st sid items).map
        (fun o => o.map (fun x => x.last_activity))).map (fun o => o.getD 0) := by
      rw [List.map_map]
      rfl
    rw [hmm, H.2.2.2, List.map_map]
    have : items.map ((fun o => Option.getD o 0) ∘ (fun it => some it.2)) =
        items.map (fun it => it.2) :=
      List.map_congr_left (fun x _ => rfl)
    rwa [this]

/-- Claim C2 witness: two stores under session `"s1"` (created at count
zero) at times `1` then `2` leave `message_count = 2` and
`last_activity = 2`, with the registry persisted twice. -/
theorem C2_session_stats_witness :
    dictGet "s1" (storeMany (fun _ => (0 : Nat))
      (⟨[("s1", ⟨"s1", "t", none, none, 0, 0, 0, 0, [], true, true⟩)], [], []⟩ :
        ManagerState Nat)
      [(⟨"id1", "a", some 1, 1, "s1", "user", [], [], 1/2, none, none⟩, (1 : ℚ)),
       (⟨"id2", "b", some 2, 2, "s1", "assistant", [], [], 1/2, none, none⟩,
        (2 : ℚ))]).sessions =
      some ⟨"s1", "t", none, none, 0, 2, 2, 0, [], true, true⟩ ∧
    (storeMany (fun _ => (0 : Nat))
      (⟨[("s1", ⟨"s1", "t", none, none, 0, 0, 0, 0, [], true, true⟩)], [], []⟩ :
        ManagerState Nat)
      [(⟨"id1", "a", some 1, 1, "s1", "user", [], [], 1/2, none, none⟩, (1 : ℚ)),
       (⟨"id2", "b", some 2, 2, "s1", "assistant", [], [], 1/2, none, none⟩,
        (2 : ℚ))]).saved.length = 2 := by
  have H := C2_session_stats (fun _ => (0 : Nat))
    (⟨[("s1", ⟨"s1", "t", none, none, 0, 0, 0, 0, [], true, true⟩)], [], []⟩ :
      ManagerState Nat)
    [(⟨"id1", "a", some 1, 1, "s1", "user", [], [], 1/2, none, none⟩, (1 : ℚ)),
     (⟨"id2", "b", some 2, 2, "s1", "assistant", [], [], 1/2, none, none⟩, (2 : ℚ))]
    "s1" ⟨"s1", "t", none, none, 0, 0, 0, 0, [], true, true⟩
    (by decide) rfl (by decide)
  exact ⟨H.2.2.2.1, H.2.2.2.2.1⟩

/-! ### Claim C3: cleanup deletes exactly old low-importance records -/

/-- Claim C3: among the records the cutoff-restricted scan returned
(all of which are older than the cutoff), `cleanup_old_memories`
deletes exactly those whose `importance_score` is strictly below `0.3`
and returns that count; a record not older than the cutoff is never
deleted; and a failing scan is reported as zero deletions with the
state untouched rather than propagated. -/
theorem C3_cleanup_policy {V : Type} [DecidableEq V] (st : ManagerState V)
    (scanned : List (StoredEntry V)) (cutoff : ℚ)
    (hscan : ∀ e ∈ scanned, e ∈ st.collection ∧ e.timestamp < cutoff)
    (hnd : (st.collection.map (fun e => e.id)).Nodup) :
    (cleanup_old_memories st (.ok scanned)).2 =
      (scanned.filter (fun e => decide (e.importance_score < 3/10))).length ∧
    (cleanup_old_memories st (.ok scanned)).1.collection =
      st.collection.filter
        (fun e => ! (decide (e ∈ scanned) && decide (e.importance_score < 3/10))) ∧
    (∀ e ∈ st.collection, ¬ e.timestamp < cutoff →
      e ∈ (cleanup_old_memories st (.ok scanned)).1.collection) ∧
    cleanup_old_memories st (Except.error ()) = (st, 0) := by
  have key : ∀ e ∈ st.collection,
      (((scanned.filter (fun x => decide (x.importance_score < 3/10))).map
        (fun x => x.id)).contains e.id = true ↔
        e ∈ scanned ∧ e.importance_score < 3/10) := by
    intro e he
    constructor
    · intro hc
      have hm : e.id ∈ (scanned.filter
          (fun x => decide (x.importance_score < 3/10))).map (fun x => x.id) := by
        simpa using hc
      obtain ⟨e2, he2, hid⟩ := List.mem_map.1 hm
      have he2s : e2 ∈ scanned := List.mem_of_mem_filter he2
      have he2p : e2.importance_score < 3/10 := by
        simpa using List.of_mem_filter he2
      have he2c : e2 ∈ st.collection := (hscan e2 he2s).1
      have heq : e2 = e := List.inj_on_of_nodup_map hnd he2c he hid
      subst heq
      exact ⟨he2s, he2p⟩
    · rintro ⟨hes, hip⟩
      have hm : e ∈ scanned.filter (fun x => decide (x.importance_score < 3/10)) :=
        List.mem_filter.2 ⟨hes, by simpa using hip⟩
      have hmm : e.id ∈ (scanned.filter
          (fun x => decide (x.importance_score < 3/10))).map (fun x => x.id) :=
        List.mem_map_of_mem (fun x => x.id) hm
      simpa using hmm
  have hbool : ∀ e ∈ st.collection,
      (! ((scanned.filter (fun x => decide (x.importance_score < 3/10))).map
        (fun x => x.id)).contains e.id) =
      (! (decide (e ∈ scanned) && decide (e.importance_score < 3/10))) := by
    intro e he
    apply congrArg
    rw [Bool.eq_iff_iff]
    simp only [Bool.and_eq_true, decide_eq_true_eq]
    exact key e he
  by_cases hids : (scanned.filter
      (fun x => decide (x.importance_score < 3/10))).map (fun x => x.id) = []
  · have hfil : scanned.filter (fun x => decide (x.importance_score < 3/10)) = [] :=
      List.map_eq_nil_iff.1 hids
    have hred : cleanup_old_memories st (.ok scanned) = (st, 0) := by
      simp only [cleanup_old_memories]
      rw [if_pos hids]
    refine ⟨by rw [hred, hfil]; rfl, ?_, ?_, rfl⟩
    · rw [hred]
      show st.collection = _
      refine (List.filter_eq_self.2 ?_).symm
      intro e _
      simp only [Bool.not_eq_eq_eq_not, Bool.not_true, Bool.and_eq_false_iff]
      by_cases hes : e ∈ scanned
      · right
        have hnotf : e ∉ scanned.filter
            (fun x => decide (x.importance_score < 3/10)) := by
          rw [hfil]; exact List.not_mem_nil e
        simp only [List.mem_filter, hes, true_and] at hnotf
        simpa using hnotf
      · left
        simpa using hes
    · intro e he _
      rw [hred]
      exact he
  · refine ⟨?_, ?_, ?_, rfl⟩
    · simp only [cleanup_old_memories]
      rw [if_neg hids]
      simp
    · simp only [cleanup_old_memories]
      rw [if_neg hids]
      exact List.filter_congr hbool
    · intro e he hts
      simp only [cleanup_old_memories]
      rw [if_neg hids]
      refine List.mem_filter.2 ⟨he, ?_⟩
      rw [hbool e he]
      have hes : e ∉ scanned := fun hmem => hts (hscan e hmem).2
      simp [hes]

/-- Claim C3 witness: with three scanned records older than the cutoff
scoring `0.1`, `0.4`, `0.8` and one newer low-importance record, cleanup
deletes only the `0.1`-scored old record, returns count `1`, keeps the
newer record, and a failed scan reports zero deletions. -/
theorem C3_cleanup_policy_witness :
    (cleanup_old_memories
      (⟨[], [⟨"a", 0, "d1", "s1", "user", 0, 1/10, [], [], "", ""⟩,
             ⟨"b", 0, "d2", "s1", "user", 0, 4/10, [], [], "", ""⟩,
             ⟨"c", 0, "d3", "s1", "user", 0, 8/10, [], [], "", ""⟩,
             ⟨"d", 0, "d4", "s1", "user", 50, 1/10, [], [], "", ""⟩], []⟩ :
        ManagerState Nat)
      (.ok [⟨"a", 0, "d1", "s1", "user", 0, 1/10, [], [], "", ""⟩,
            ⟨"b", 0, "d2", "s1", "user", 0, 4/10, [], [], "", ""⟩,
            ⟨"c", 0, "d3", "s1", "user", 0, 8/10, [], [], "", ""⟩])).2 = 1 ∧
    (cleanup_old_memories
      (⟨[], [⟨"a", 0, "d1", "s1", "user", 0, 1/10, [], [], "", ""⟩,
             ⟨"b", 0, "d2", "s1", "user", 0, 4/10, [], [], "", ""⟩,
             ⟨"c", 0, "d3", "s1", "user", 0, 8/10, [], [], "", ""⟩,
             ⟨"d", 0, "d4", "s1", "user", 50, 1/10, [], [], "", ""⟩], []⟩ :
        ManagerState Nat)
      (.ok [⟨"a", 0, "d1", "s1", "user", 0, 1/10, [], [], "", ""⟩,
            ⟨"b", 0, "d2", "s1", "user", 0, 4/10, [], [], "", ""⟩,
            ⟨"c", 0, "d3", "s1", "user", 0, 8/10, [], [], "", ""⟩])).1.collection =
      [⟨"b", 0, "d2", "s1", "user", 0, 4/10, [], [], "", ""⟩,
       ⟨"c", 0, "d3", "s1", "user", 0, 8/10, [], [], "", ""⟩,
       ⟨"d", 0, "d4", "s1", "user", 50, 1/10, [], [], "", ""⟩] ∧
    cleanup_old_memories
      (⟨[], [⟨"a", 0, "d1", "s1", "user", 0, 1/10, [], [], "", ""⟩,
             ⟨"b", 0, "d2", "s1", "user", 0, 4/10, [], [], "", ""⟩,
             ⟨"c", 0, "d3", "s1", "user", 0, 8/10, [], [], "", ""⟩,
             ⟨"d", 0, "d4", "s1", "user", 50, 1/10, [], [], "", ""⟩], []⟩ :
        ManagerState Nat) (Except.error ()) =
      (⟨[], [⟨"a", 0, "d1", "s1", "user", 0, 1/10, [], [], "", ""⟩,
             ⟨"b", 0, "d2", "s1", "user", 0, 4/10, [], [], "", ""⟩,
             ⟨"c", 0, "d3", "s1", "user", 0, 8/10, [], [], "", ""⟩,
             ⟨"d", 0, "d4", "s1", "user", 50, 1/10, [], [], "", ""⟩], []⟩, 0) := by
  have H := C3_cleanup_policy
    (⟨[], [⟨"a", 0, "d1", "s1", "user", 0, 1/10, [], [], "", ""⟩,
           ⟨"b", 0, "d2", "s1", "user", 0, 4/10, [], [], "", ""⟩,
           ⟨"c", 0, "d3", "s1", "user", 0, 8/10, [], [], "", ""⟩,
           ⟨"d", 0, "d4", "s1", "user", 50, 1/10, [], [], "", ""⟩], []⟩ :
      ManagerState Nat)
    [⟨"a", 0, "d1", "s1", "user", 0, 1/10, [], [], "", ""⟩,
     ⟨"b", 0, "d2", "s1", "user", 0, 4/10, [], [], "", ""⟩,
     ⟨"c", 0, "d3", "s1", "user", 0, 8/10, [], [], "", ""⟩] 10
    (by
      intro e he
      simp only [List.mem_cons, List.not_mem_nil, or_false] at he
      rcases he with rfl | rfl | rfl
      · exact ⟨by simp, by norm_num⟩
      · exact ⟨by simp, by norm_num⟩
      · exact ⟨by simp, by norm_num⟩)
    (by simp)
  refine ⟨?_, ?_, H.2.2.2⟩
  · rw [H.1]
    norm_num [List.filter]
  · rw [H.2.1]
    norm_num [List.filter]

/-! ### Normalisation lemmas (embedding_service.py) -/

theorem normSq_nonneg (v : List ℝ) : 0 ≤ normSq v := by
  refine List.sum_nonneg ?_
  intro x hx
  obtain ⟨y, _, rfl⟩ := List.mem_map.1 hx
  exact mul_self_nonneg y

theorem vecNorm_eq_zero_iff (v : List ℝ) : vecNorm v = 0 ↔ normSq v = 0 :=
  Real.sqrt_eq_zero (normSq_nonneg v)

theorem normSq_map_div (v : List ℝ) (c : ℝ) :
    normSq (v.map (fun x => x / c)) = normSq v / (c * c) := by
  induction v with
  | nil => simp [normSq]
  | cons x t ih =>
    simp only [List.map_cons, normSq, List.sum_cons] at ih ⊢
    rw [ih, div_mul_div_comm, div_add_div_same]

theorem vecNorm_normalizeVector (v : List ℝ) (h : vecNorm v ≠ 0) :
    vecNorm (normalizeVector v) = 1 := by
  have hsq : normSq v ≠ 0 := fun hz => h ((vecNorm_eq_zero_iff v).2 hz)
  rw [normalizeVector, if_neg h, vecNorm, normSq_map_div, vecNorm,
    Real.mul_self_sqrt (normSq_nonneg v), div_self hsq, Real.sqrt_one]

theorem normalizeVector_of_zero (v : List ℝ) (h : vecNorm v = 0) :
    normalizeVector v = v := by
  rw [normalizeVector, if_pos h]

theorem vecNorm_nil : vecNorm [] = 0 := by
  simp [vecNorm, normSq, Real.sqrt_zero]

theorem normalizeVector_nil : normalizeVector [] = [] :=
  normalizeVector_of_zero [] vecNorm_nil

/-! ### Claim C4: embed output is L2-normalized, zero vector unchanged -/

/-- Claim C4: the normalisation applied by `embed_text` to the
provider's output before returning and before caching produces a vector
of L2 norm `1` whenever the input norm is nonzero, and returns a
zero-norm vector unchanged; on a cache miss with non-blank text,
`embed_text` returns exactly the normalised provider output and (when
the cache has room) caches that same normalised vector. -/
theorem C4_embed_normalized :
    (∀ v : List ℝ, vecNorm v ≠ 0 → vecNorm (normalizeVector v) = 1) ∧
    (∀ v : List ℝ, vecNorm v = 0 → normalizeVector v = v) ∧
    (∀ (hashFn : String → Int) (provider : String → List ℝ)
      (maxCacheSize : Nat) (s : EmbState) (text : String),
      (pyStripL text.data).isEmpty = false →
      List.lookup (hashFn text) s.cache = none →
      (embed_text hashFn provider maxCacheSize s text).1 =
        .ok (normalizeVector (provider text)) ∧
      (s.cache.length < maxCacheSize →
        (embed_text hashFn provider maxCacheSize s text).2.cache =
          (hashFn text, normalizeVector (provider text)) :: s.cache)) := by
  refine ⟨vecNorm_normalizeVector, normalizeVector_of_zero, ?_⟩
  intro hashFn provider maxCacheSize s text hblank hmiss
  constructor
  · simp only [embed_text, hblank, Bool.false_eq_true, if_false, hmiss]
  · intro hroom
    simp only [embed_text, hblank, Bool.false_eq_true, if_false, hmiss, if_pos hroom]

/-- Claim C4 witness: `[3, 4]` normalises to norm `1`, the zero vector
`[0]` is returned unchanged, and a concrete cache-miss call returns and
caches the normalised provider output. -/
theorem C4_embed_normalized_witness :
    vecNorm (normalizeVector [(3 : ℝ), 4]) = 1 ∧
    normalizeVector [(0 : ℝ)] = [(0 : ℝ)] ∧
    (embed_text (fun _ => 0) (fun _ => [(3 : ℝ), 4]) 1 ⟨[], 0⟩ "a").1 =
      .ok (normalizeVector [(3 : ℝ), 4]) ∧
    (embed_text (fun _ => 0) (fun _ => [(3 : ℝ), 4]) 1 ⟨[], 0⟩ "a").2.cache =
      [((0 : Int), normalizeVector [(3 : ℝ), 4])] := by
  have hnz : vecNorm [(3 : ℝ), 4] ≠ 0 := by
    have h25 : normSq [(3 : ℝ), 4] = 25 := by
      simp [normSq]
      norm_num
    rw [vecNorm, h25]
    positivity
  have hz : vecNorm [(0 : ℝ)] = 0 := by
    have h0 : normSq [(0 : ℝ)] = 0 := by simp [normSq]
    rw [vecNorm, h0, Real.sqrt_zero]
  have H3 := C4_embed_normalized.2.2 (fun _ => 0) (fun _ => [(3 : ℝ), 4]) 1
    ⟨[], 0⟩ "a" (by decide) rfl
  exact ⟨C4_embed_normalized.1 [(3 : ℝ), 4] hnz,
    C4_embed_normalized.2.1 [(0 : ℝ)] hz, H3.1, H3.2 (by decide)⟩

/-! ### Claim C7: empty or whitespace-only text is rejected -/

theorem pyStripL_eq_nil_iff (l : List Char) :
    pyStripL l = [] ↔ ∀ c ∈ l, pyIsSpace c := by
  unfold pyStripL
  rw [List.reverse_eq_nil_iff, List.dropWhile_eq_nil_iff]
  constructor
  · intro h c hc
    rcases List.mem_append.1
      ((List.takeWhile_append_dropWhile pyIsSpace l) ▸ hc) with htk | hdr
    · exact List.mem_takeWhile_imp htk
    · exact h c (List.mem_reverse.2 hdr)
  · intro h c hc
    exact h c ((List.dropWhile_sublist pyIsSpace).subset (List.mem_reverse.1 hc))

/-- Claim C7: `embed_text` fails with the `ValueError` message for every
empty or whitespace-only text, and a retrieval whose query text is
empty or whitespace-only fails through that same validation with zero
index queries issued. -/
theorem C7_blank_text_rejected :
    (∀ (hashFn : String → Int) (provider : String → List ℝ) (maxCacheSize : Nat)
      (s : EmbState) (text : String), (∀ c ∈ text.data, pyIsSpace c) →
      embed_text hashFn provider maxCacheSize s text =
        (.error "Empty text cannot be embedded", s)) ∧
    (∀ (hashFn : String → Int) (provider : String → List ℝ) (maxCacheSize : Nat)
      (idx : List ℝ → Int → List QueryHit) (es : EmbState) (query : String)
      (tk : Option Int) (thr : Option ℚ), (∀ c ∈ query.data, pyIsSpace c) →
      retrieve_memories hashFn provider maxCacheSize idx es query tk thr =
        (.error "Empty text cannot be embedded", es, 0)) := by
  have hemb : ∀ (hashFn : String → Int) (provider : String → List ℝ)
      (maxCacheSize : Nat) (s : EmbState) (text : String),
      (∀ c ∈ text.data, pyIsSpace c) →
      embed_text hashFn provider maxCacheSize s text =
        (.error "Empty text cannot be embedded", s) := by
    intro hashFn provider maxCacheSize s text h
    have hstrip : (pyStripL text.data).isEmpty = true := by
      rw [List.isEmpty_iff]
      exact (pyStripL_eq_nil_iff text.data).2 h
    simp only [embed_text, hstrip, if_true]
  refine ⟨hemb, ?_⟩
  intro hashFn provider maxCacheSize idx es query tk thr h
  have := hemb hashFn provider maxCacheSize es query h
  simp only [retrieve_memories, this]

/-- Claim C7 witness: the empty string and a whitespace-only string are
both rejected, and a whitespace-only retrieval query produces the same
error with no index query. -/
theorem C7_blank_text_rejected_witness :
    embed_text (fun _ => 0) (fun _ => []) 1000 ⟨[], 0⟩ "" =
      (.error "Empty text cannot be embedded", ⟨[], 0⟩) ∧
    embed_text (fun _ => 0) (fun _ => []) 1000 ⟨[], 0⟩ "  " =
      (.error "Empty text cannot be embedded", ⟨[], 0⟩) ∧
    retrieve_memories (fun _ => 0) (fun _ => []) 1000 (fun _ _ => []) ⟨[], 0⟩
        " " none none =
      (.error "Empty text cannot be embedded", ⟨[], 0⟩, 0) :=
  ⟨C7_blank_text_rejected.1 (fun _ => 0) (fun _ => []) 1000 ⟨[], 0⟩ "" (by decide),
   C7_blank_text_rejected.1 (fun _ => 0) (fun _ => []) 1000 ⟨[], 0⟩ "  " (by decide),
   C7_blank_text_rejected.2 (fun _ => 0) (fun _ => []) 1000 (fun _ _ => []) ⟨[], 0⟩
     " " none none (by decide)⟩

/-! ### Claim C5: embedding cache behaviour -/

/-- Claim C5 counterexample: with the cache at its bounded capacity
(capacity `1`, one unrelated entry), two successive `embed_text` calls
on the same text `"a"` each invoke the underlying provider — the
provider-call counter reaches `2` — and nothing is cached, refuting
"for all texts, the second call returns cached output without
re-invoking the provider". -/
theorem C5_counterexample_full_cache_reinvokes :
    (embed_text (fun _ => 0) (fun _ => []) 1
      (embed_text (fun _ => 0) (fun _ => []) 1
        ⟨[((5 : Int), [])], 0⟩ "a").2 "a").2.providerCalls = 2 ∧
    (embed_text (fun _ => 0) (fun _ => []) 1
      ⟨[((5 : Int), [])], 0⟩ "a").2.providerCalls = 1 ∧
    (embed_text (fun _ => 0) (fun _ => []) 1
      ⟨[((5 : Int), [])], 0⟩ "a").2.cache = [((5 : Int), [])] :=
  ⟨rfl, rfl, rfl⟩

/-- Claim C5 (amended): the cache is looked up by the hash of the raw
text before computing — a hit returns the cached vector with no
provider call and no state change; on a miss while the cache is below
capacity the result is computed, cached, and a repeated call returns
the identical output without re-invoking the provider; on a miss with
the cache at capacity the embedding is computed but not cached (so a
repeated call recomputes). -/
theorem C5_cache_behavior :
    (∀ (hashFn : String → Int) (provider : String → List ℝ) (maxCacheSize : Nat)
      (s : EmbState) (text : String) (v : List ℝ),
      (pyStripL text.data).isEmpty = false →
      List.lookup (hashFn text) s.cache = some v →
      embed_text hashFn provider maxCacheSize s text = (.ok v, s)) ∧
    (∀ (hashFn : String → Int) (provider : String → List ℝ) (maxCacheSize : Nat)
      (s : EmbState) (text : String),
      (pyStripL text.data).isEmpty = false →
      List.lookup (hashFn text) s.cache = none →
      s.cache.length < maxCacheSize →
      embed_text hashFn provider maxCacheSize s text =
        (.ok (normalizeVector (provider text)),
         ⟨(hashFn text, normalizeVector (provider text)) :: s.cache,
          s.providerCalls + 1⟩) ∧
      embed_text hashFn provider maxCacheSize
        ⟨(hashFn text, normalizeVector (provider text)) :: s.cache,
         s.providerCalls + 1⟩ text =
        (.ok (normalizeVector (provider text)),
         ⟨(hashFn text, normalizeVector (provider text)) :: s.cache,
          s.providerCalls + 1⟩)) ∧
    (∀ (hashFn : String → Int) (provider : String → List ℝ) (maxCacheSize : Nat)
      (s : EmbState) (text : String),
      (pyStripL text.data).isEmpty = false →
      List.lookup (hashFn text) s.cache = none →
      ¬ s.cache.length < maxCacheSize →
      embed_text hashFn provider maxCacheSize s text =
        (.ok (normalizeVector (provider text)), ⟨s.cache, s.providerCalls + 1⟩)) := by
  refine ⟨?_, ?_, ?_⟩
  · intro hashFn provider maxCacheSize s text v hblank hhit
    simp only [embed_text, hblank, Bool.false_eq_true, if_false, hhit]
  · intro hashFn provider maxCacheSize s text hblank hmiss hroom
    constructor
    · simp only [embed_text, hblank, Bool.false_eq_true, if_false, hmiss, if_pos hroom]
    · simp only [embed_text, hblank, Bool.false_eq_true, if_false, List.lookup,
        beq_self_eq_true]
  · intro hashFn provider maxCacheSize s text hblank hmiss hfull
    simp only [embed_text, hblank, Bool.false_eq_true, if_false, hmiss, if_neg hfull]

/-- Claim C5 witness: a concrete miss-then-hit run — the first call on
`"a"` computes and caches, the second returns the identical vector from
the cache without a further provider call — plus a concrete at-capacity
miss that computes without caching. -/
theorem C5_cache_behavior_witness :
    embed_text (fun _ => 0) (fun _ => []) 1 ⟨[], 0⟩ "a" =
      (.ok [], ⟨[((0 : Int), [])], 1⟩) ∧
    embed_text (fun _ => 0) (fun _ => []) 1 ⟨[((0 : Int), [])], 1⟩ "a" =
      (.ok [], ⟨[((0 : Int), [])], 1⟩) ∧
    embed_text (fun _ => 0) (fun _ => []) 0 ⟨[], 0⟩ "a" =
      (.ok [], ⟨[], 1⟩) := by
  have H2 := C5_cache_behavior.2.1 (fun _ => 0) (fun _ => ([] : List ℝ)) 1
    ⟨[], 0⟩ "a" (by decide) rfl (by decide)
  have H3 := C5_cache_behavior.2.2 (fun _ => 0) (fun _ => ([] : List ℝ)) 0
    ⟨[], 0⟩ "a" (by decide) rfl (by decide)
  rw [normalizeVector_nil] at H2 H3
  exact ⟨H2.1, H2.2, H3⟩
